import Mathlib

/-!
Shallow embedding of the lab2-otel repository (two Go services):
`src/servico-a/main.go` (gateway) and `src/servico-b/main.go` (orchestrator).

Pure functions (`validateCEP`, `convertTemps`) are translated directly.
Handlers performing HTTP calls are embedded as functions over an explicit
environment (an oracle giving the outcome of each outbound call), returning
the HTTP response together with the list of outbound calls actually made.
Go `float64` arithmetic is modelled over `ℚ`; the error paths and constants
under scrutiny are exact in both.
-/

namespace Lab2Otel

/-- HTTP method of an inbound request (the code only ever compares against
`http.MethodPost`, so all non-POST methods are collapsed into the remaining
constructors). -/
inductive Method where
  | get
  | post
  | put
  | delete
  | other (name : String)
deriving DecidableEq

/-- One ASCII decimal digit, the class `\d` of Go's `regexp` package
(in Go, `\d` is the ASCII class `[0-9]`, not a Unicode class). -/
def isAsciiDigit (c : Char) : Bool :=
  '0' ≤ c && c ≤ '9'

/-- Embedding of `validateCEP` (identical in `src/servico-a/main.go` lines
86–89 and `src/servico-b/main.go` lines 95–98): Go code
`regexp.MustCompile` of the pattern caret, backslash-d, repeated 8, dollar,
then `MatchString(cep)`. Without the multiline flag, Go anchors `^`/`$`
match only at the beginning/end of the whole text, so the regex matches
exactly the strings made of precisely 8 ASCII digits. -/
def validateCEP (cep : String) : Bool :=
  cep.length == 8 && cep.data.all isAsciiDigit

/-- Embedding of `convertTemps` return type `TempResp`
(`src/servico-b/main.go` lines 34–39), with `float64` modelled as `ℚ`. -/
structure TempResp where
  city : String
  temp_C : ℚ
  temp_F : ℚ
  temp_K : ℚ
deriving DecidableEq

/-- Embedding of `convertTemps` (`src/servico-b/main.go` lines 184–191):
`TempF = celsius*1.8 + 32`, `TempK = celsius + 273`. -/
def convertTemps (celsius : ℚ) (cidade : String) : TempResp :=
  { city := cidade
    temp_C := celsius
    temp_F := celsius * 1.8 + 32
    temp_K := celsius + 273 }

/-! ## Minimal JSON model for the gateway's request body

`CepHandler` runs `json.NewDecoder(r.Body).Decode(&req)` with
`req : CepRequest` a struct with a single string field tagged `cep`.
The body is modelled as `Option Json`: `none` stands for a byte stream
that is not well-formed JSON (the decoder errors), `some j` for a stream
whose first JSON value parses to `j`. -/

/-- A parsed JSON value (numbers as `ℚ`; `null` as its own constructor). -/
inductive Json where
  | str (s : String)
  | num (q : ℚ)
  | bool (b : Bool)
  | null
  | arr (elems : List Json)
  | obj (fields : List (String × Json))

/-- ASCII lower-casing of one character, leaving all others unchanged. -/
def asciiLowerChar (c : Char) : Char :=
  if 'A' ≤ c ∧ c ≤ 'Z' then Char.ofNat (c.toNat + 32) else c

/-- Whether an object key maps to the struct field tagged `cep`: Go's
`encoding/json` matches keys case-insensitively (`EqualFold`, which on the
keys in play coincides with ASCII lower-casing). -/
def keyMatchesCep (k : String) : Bool :=
  k.data.map asciiLowerChar == "cep".data

/-- When a matching key occurs several times in a Go JSON object, the last
occurrence wins (the decoder assigns the field once per occurrence, in
order). This returns the value that ends up assigned to the `cep` field,
or `none` when no key of the object maps to it. -/
def lookupCepField (fields : List (String × Json)) : Option Json :=
  ((fields.filter (fun kv => keyMatchesCep kv.1)).getLast?).map Prod.snd

/-- Embedding of `CepRequest` (`src/servico-a/main.go` lines 21–23). -/
structure CepRequest where
  cep : String
deriving DecidableEq

/-- Embedding of `json.Decode` into `CepRequest`: a JSON object assigns the
`cep` field from its matching key (absent key or JSON `null` leave the Go
zero value `""`; a non-string value is a type error); top-level `null` is a
no-op leaving the zero struct; any other top-level value is a type error.
`Except.error ()` stands for the decoder returning a non-nil error. -/
def decodeCepRequest : Option Json → Except Unit CepRequest
  | none => Except.error ()
  | some (Json.obj fields) =>
      match lookupCepField fields with
      | some (Json.str s) => Except.ok ⟨s⟩
      | some Json.null => Except.ok ⟨""⟩
      | some _ => Except.error ()
      | none => Except.ok ⟨""⟩
  | some Json.null => Except.ok ⟨""⟩
  | some _ => Except.error ()

/-! ## Gateway (`servico-a`) handler -/

/-- An HTTP response as produced by the gateway: status code, whether the
handler set `Content-Type: application/json`, and the raw body bytes.
(`http.Error` sets a text content type, so error paths carry `false`.) -/
structure AResponse where
  status : Nat
  contentTypeJson : Bool
  body : String
deriving DecidableEq

/-- A response received from service B over the wire: status code plus raw
body bytes, as seen by the gateway before relaying. -/
structure BWireResponse where
  status : Nat
  body : String
deriving DecidableEq

/-- Oracle for the gateway's single outbound call: the outcome of
`client.Do` against `http://servico-b:8080/tempo?cep=...` for a given cep.
`none` models a transport error (`err != nil`). -/
structure GatewayEnv where
  serviceB : String → Option BWireResponse

/-- Result of one run of `CepHandler`: the response written to the caller
and the ceps for which an outbound call to service B was issued. -/
structure GatewayResult where
  response : AResponse
  calls : List String
deriving DecidableEq

/-- Embedding of `CepHandler` (`src/servico-a/main.go` lines 45–84), in the
source's order of checks: non-POST method → 405; body that fails to decode
→ 400; cep failing `validateCEP` → 422 `invalid zipcode`; then the outbound
GET to service B, a transport error → 500, otherwise the downstream status
and body are relayed unchanged with `Content-Type: application/json`. -/
def CepHandler (env : GatewayEnv) (method : Method) (body : Option Json) :
    GatewayResult :=
  if method ≠ Method.post then
    ⟨⟨405, false, "Método não permitido"⟩, []⟩
  else
    match decodeCepRequest body with
    | Except.error _ => ⟨⟨400, false, "invalid request body"⟩, []⟩
    | Except.ok req =>
        if ¬ validateCEP req.cep then
          ⟨⟨422, false, "invalid zipcode"⟩, []⟩
        else
          match env.serviceB req.cep with
          | none => ⟨⟨500, false, "erro ao conectar com serviço B"⟩, [req.cep]⟩
          | some resp =>
              ⟨⟨resp.status, true, resp.body⟩, [req.cep]⟩

/-! ## Orchestrator (`servico-b`) handler -/

/-- Embedding of `ViaCEP` (`src/servico-b/main.go` lines 23–26). -/
structure ViaCEP where
  localidade : String
  uf : String
deriving DecidableEq

/-- Geocoding result entry (`src/servico-b/main.go` lines 140–145),
`float64` modelled as `ℚ`. -/
structure GeoCoord where
  latitude : ℚ
  longitude : ℚ
deriving DecidableEq

/-- Outcome of one outbound HTTP call as the Go code distinguishes them:
`ok` (2xx with a body that decodes), `transportError` (`client.Do` or the
body read returns an error), `decodeError` (`json.Unmarshal` fails). -/
inductive CallResult (α : Type) where
  | ok (a : α)
  | transportError
  | decodeError
deriving DecidableEq

/-- Oracle for the orchestrator's three outbound calls: the ViaCEP
directory lookup by cep, the Open-Meteo geocoding lookup by city name, and
the Open-Meteo forecast lookup by coordinates. -/
structure OrchestratorEnv where
  viaCEP : String → CallResult ViaCEP
  geocoding : String → CallResult (List GeoCoord)
  weather : GeoCoord → CallResult ℚ

/-- Label of one outbound call made by the orchestrator. -/
inductive ExtCall where
  | directory (cep : String)
  | geocode (city : String)
  | forecast (coord : GeoCoord)
deriving DecidableEq

/-- Embedding of `BuscaCEP` (`src/servico-b/main.go` lines 100–124): one
call to the ViaCEP directory; a transport, read or unmarshal error all
surface as the function returning a non-nil error (`Except.error ()`).
The second component records the outbound call made. -/
def BuscaCEP (env : OrchestratorEnv) (cep : String) :
    Except Unit ViaCEP × List ExtCall :=
  (match env.viaCEP cep with
   | CallResult.ok c => Except.ok c
   | CallResult.transportError => Except.error ()
   | CallResult.decodeError => Except.error (), [ExtCall.directory cep])

/-- The error of `fetchWeather`: transport and decode failures of either
call, or the domain error built by `fmt.Errorf` when the geocoding result
list is empty. -/
inductive FetchError where
  | transport
  | decode
  | domain (msg : String)
deriving DecidableEq

/-- The message `fmt.Errorf` formats at `src/servico-b/main.go` line 157
when the geocoding response has no results. -/
def coordErrorMessage (cidade : String) : String :=
  "não foi possível encontrar coordenadas para a cidade: " ++ cidade

/-- Embedding of `fetchWeather` (`src/servico-b/main.go` lines 126–182):
geocoding call first (transport/read/decode errors surface as errors; an
empty `results` list yields the domain error naming the city), then the
forecast call with the first result's coordinates (transport/read/decode
errors surface as errors), finally the current temperature in Celsius.
The second component records the outbound calls made, in order. -/
def fetchWeather (env : OrchestratorEnv) (cidade : String) :
    Except FetchError ℚ × List ExtCall :=
  match env.geocoding cidade with
  | CallResult.transportError =>
      (Except.error FetchError.transport, [ExtCall.geocode cidade])
  | CallResult.decodeError =>
      (Except.error FetchError.decode, [ExtCall.geocode cidade])
  | CallResult.ok results =>
      match results with
      | [] =>
          (Except.error (FetchError.domain (coordErrorMessage cidade)),
           [ExtCall.geocode cidade])
      | coord :: _ =>
          match env.weather coord with
          | CallResult.transportError =>
              (Except.error FetchError.transport,
               [ExtCall.geocode cidade, ExtCall.forecast coord])
          | CallResult.decodeError =>
              (Except.error FetchError.decode,
               [ExtCall.geocode cidade, ExtCall.forecast coord])
          | CallResult.ok temp =>
              (Except.ok temp,
               [ExtCall.geocode cidade, ExtCall.forecast coord])

/-- Body of an orchestrator response: either the plain-text message written
by `http.Error`, or the JSON encoding of a `TempResp`. -/
inductive BBody where
  | text (s : String)
  | json (t : TempResp)
deriving DecidableEq

/-- An HTTP response as produced by the orchestrator. -/
structure BResponse where
  status : Nat
  contentTypeJson : Bool
  body : BBody
deriving DecidableEq

/-- Result of one run of `WeatherHandler`: response plus outbound calls. -/
structure OrchestratorResult where
  response : BResponse
  calls : List ExtCall
deriving DecidableEq

/-- Embedding of `WeatherHandler` (`src/servico-b/main.go` lines 61–93).
The Go handler never reads `r.Method`; the `_method` argument is
accordingly unused. Stages, in the source's order: `validateCEP` on the
`cep` query parameter → 422; `BuscaCEP` error or empty `Localidade` → 404
`can not find zipcode`; `fetchWeather` error → 500; otherwise 200 with the
converted temperatures as JSON. -/
def WeatherHandler (env : OrchestratorEnv) (_method : Method)
    (cepParam : String) : OrchestratorResult :=
  if ¬ validateCEP cepParam then
    ⟨⟨422, false, BBody.text "invalid zipcode"⟩, []⟩
  else
    match BuscaCEP env cepParam with
    | (Except.error _, bCalls) =>
        ⟨⟨404, false, BBody.text "can not find zipcode"⟩, bCalls⟩
    | (Except.ok cepData, bCalls) =>
        if cepData.localidade = "" then
          ⟨⟨404, false, BBody.text "can not find zipcode"⟩, bCalls⟩
        else
          match fetchWeather env cepData.localidade with
          | (Except.error _, wCalls) =>
              ⟨⟨500, false, BBody.text "erro ao buscar temperatura"⟩,
               bCalls ++ wCalls⟩
          | (Except.ok tempC, wCalls) =>
              ⟨⟨200, true, BBody.json (convertTemps tempC cepData.localidade)⟩,
               bCalls ++ wCalls⟩

/-! ## Trace-context propagation model

Embedding of the OpenTelemetry wiring of the two services, following the
semantics of the OpenTelemetry Go SDK and the `otelhttp` instrumentation
used by both `main.go` files:

* `otelhttp.NewTransport`/`otelhttp.NewHandler` are constructed with no
  propagator option, so they use the process-global text-map propagator
  (`otel.GetTextMapPropagator`).
* The SDK's default global text-map propagator is an empty composite — a
  no-op that injects and extracts nothing — until the process calls
  `otel.SetTextMapPropagator`.
* `initTracer` in `src/servico-b/main.go` (lines 216–219) registers the
  composite W3C trace-context + baggage propagator; `initTracer` in
  `src/servico-a/main.go` (lines 91–114) registers only the tracer
  provider and never calls `otel.SetTextMapPropagator`.
* A W3C `traceparent` header carries the trace id unchanged; a server or
  client span started under an extracted remote parent keeps the parent's
  trace id, while a span started with no remote parent begins a fresh
  trace with a newly generated trace id. -/

/-- The process-global text-map propagator: the SDK default no-op, or the
composite W3C trace-context + baggage propagator. -/
inductive Propagator where
  | noop
  | w3cTraceContextBaggage
deriving DecidableEq

/-- Whether a service's `initTracer` calls `otel.SetTextMapPropagator`. -/
structure TracerInit where
  registersW3CPropagator : Bool

/-- `initTracer` of `src/servico-a/main.go` lines 91–114: creates the OTLP
exporter and the tracer provider and calls `otel.SetTracerProvider`, but
never `otel.SetTextMapPropagator`. -/
def servicoAInit : TracerInit := ⟨false⟩

/-- `initTracer` of `src/servico-b/main.go` lines 193–222: additionally
calls `otel.SetTextMapPropagator` with the composite trace-context +
baggage propagator (lines 216–219). -/
def servicoBInit : TracerInit := ⟨true⟩

/-- The global propagator of a process after its `initTracer` ran. -/
def globalPropagator (init : TracerInit) : Propagator :=
  if init.registersW3CPropagator then Propagator.w3cTraceContextBaggage
  else Propagator.noop

/-- The trace-id content of a `traceparent` header set, `none` when no such
header is present (baggage carries no trace id and is elided). -/
def TraceHeaders : Type := Option Nat

/-- Injection of the current span context into outbound headers: the no-op
propagator leaves the carrier untouched (no `traceparent` header); the W3C
propagator writes the current trace id. -/
def inject (p : Propagator) (currentTraceId : Nat) : TraceHeaders :=
  match p with
  | Propagator.noop => none
  | Propagator.w3cTraceContextBaggage => some currentTraceId

/-- Extraction of a remote span context from inbound headers: the no-op
propagator finds nothing; the W3C propagator reads the `traceparent`
header when present. -/
def extract (p : Propagator) (headers : TraceHeaders) : Option Nat :=
  match p with
  | Propagator.noop => none
  | Propagator.w3cTraceContextBaggage => headers

/-- Trace id of a span started from an inbound request: the remote
parent's trace id when one was extracted, otherwise a freshly generated
trace id beginning a new root trace. -/
def spanTraceId (remote : Option Nat) (freshTraceId : Nat) : Nat :=
  match remote with
  | some t => t
  | none => freshTraceId

/-- Trace id of the span started at the gateway (`CepHandler`, via the
`otelhttp` handler and `tracer.Start`) for a client request that carries
no trace context of its own: a fresh root trace id. -/
def gatewayTraceId (freshA : Nat) : Nat :=
  spanTraceId (extract (globalPropagator servicoAInit) none) freshA

/-- Headers of the gateway's outbound GET to service B: the current span
context injected through service A's global propagator by the
`otelhttp.NewTransport` round-tripper (`src/servico-a/main.go` line 69). -/
def outboundHeadersToB (freshA : Nat) : TraceHeaders :=
  inject (globalPropagator servicoAInit) (gatewayTraceId freshA)

/-- Trace id of the span started at the orchestrator (`WeatherHandler`,
via the `otelhttp` handler and `tracer.Start`): extracted from the
inbound headers through service B's global propagator, falling back to a
fresh root trace id. -/
def orchestratorTraceId (freshA freshB : Nat) : Nat :=
  spanTraceId (extract (globalPropagator servicoBInit) (outboundHeadersToB freshA))
    freshB

/-- Trace id carried on each of the orchestrator's three outbound calls
(directory, geocoding, forecast): the handler span's context injected
through service B's global propagator by `otelhttp.NewTransport`. -/
def orchestratorOutboundHeaders (freshA freshB : Nat) : TraceHeaders :=
  inject (globalPropagator servicoBInit) (orchestratorTraceId freshA freshB)

/-! ## Concrete environments used by witnesses -/

/-- Gateway environment in which service B is unreachable (every outbound
call fails at transport level). -/
def envBDown : GatewayEnv := ⟨fun _ => none⟩

/-- Gateway environment in which service B answers 200 with a fixed body. -/
def envBOk : GatewayEnv := ⟨fun _ => some ⟨200, "weather-json"⟩⟩

/-- Orchestrator environment in which the directory lookup succeeds but
returns an empty locality (ViaCEP's own "not found" shape). -/
def envEmptyLocality : OrchestratorEnv :=
  ⟨fun _ => CallResult.ok ⟨"", ""⟩, fun _ => CallResult.ok [],
   fun _ => CallResult.ok 0⟩

/-- Orchestrator environment in which the directory lookup resolves the
city but the geocoding lookup returns an empty result list. -/
def envNoCoords : OrchestratorEnv :=
  ⟨fun _ => CallResult.ok ⟨"Sao Paulo", "SP"⟩, fun _ => CallResult.ok [],
   fun _ => CallResult.ok 0⟩

/-- A request body carrying a cep that fails the format check. -/
def bodyShortCep : Option Json := some (Json.obj [("cep", Json.str "123")])

/-- A request body carrying a well-formed 8-digit cep. -/
def bodyGoodCep : Option Json := some (Json.obj [("cep", Json.str "01001000")])

/-! ## Theorems for the claims -/

/-- Claim C4: the temperature converter is pure and satisfies, for every
Celsius input and city, `tempC = c`, `tempF = c*1.8 + 32`, `tempK = c + 273`
(exactly 273, not 273.15); in particular `convert(0).tempF = 32`,
`convert(0).tempK = 273`, `convert(100).tempF = 212`,
`convert(-40).tempF = -40`. -/
theorem c4_convertTemps_formulas :
    (∀ (c : ℚ) (city : String),
        (convertTemps c city).city = city ∧
        (convertTemps c city).temp_C = c ∧
        (convertTemps c city).temp_F = c * 1.8 + 32 ∧
        (convertTemps c city).temp_K = c + 273) ∧
    (convertTemps 0 "x").temp_F = 32 ∧
    (convertTemps 0 "x").temp_K = 273 ∧
    (convertTemps 0 "x").temp_K ≠ 273.15 ∧
    (convertTemps 100 "x").temp_F = 212 ∧
    (convertTemps (-40) "x").temp_F = -40 := by
  refine ⟨fun c city => ⟨rfl, rfl, rfl, rfl⟩, ?_, ?_, ?_, ?_, ?_⟩ <;>
    norm_num [convertTemps]

/-- Claim C5: `validateCEP` (identical in both services) returns `true`
iff the string consists of exactly 8 ASCII decimal digits; 7- or 9-digit
strings, letters, hyphens, and surrounding whitespace are rejected. -/
theorem c5_validateCEP_iff :
    (∀ s : String,
        validateCEP s = true ↔
          s.length = 8 ∧ ∀ c ∈ s.data, '0' ≤ c ∧ c ≤ '9') ∧
    validateCEP "1234567" = false ∧
    validateCEP "123456789" = false ∧
    validateCEP "1234567a" = false ∧
    validateCEP "12345-678" = false ∧
    validateCEP " 12345678" = false ∧
    validateCEP "12345678 " = false ∧
    validateCEP "12345678" = true := by
  refine ⟨fun s => ?_, by decide, by decide, by decide, by decide, by decide,
    by decide, by decide⟩
  simp [validateCEP, isAsciiDigit, List.all_eq_true]

/-- Claim C6: when the gateway receives a POST whose body decodes to a cep
passing the format check and service B responds, the gateway relays the
downstream status code and body unchanged, setting `Content-Type:
application/json`. -/
theorem c6_gateway_relays_verbatim (env : GatewayEnv) (body : Option Json)
    (req : CepRequest) (resp : BWireResponse)
    (hdec : decodeCepRequest body = Except.ok req)
    (hv : validateCEP req.cep = true)
    (hb : env.serviceB req.cep = some resp) :
    (CepHandler env Method.post body).response =
      ⟨resp.status, true, resp.body⟩ := by
  simp [CepHandler, hdec, hv, hb]

/-- Witness for C6 at a concrete body and environment. -/
theorem c6_gateway_relays_verbatim_witness :
    (CepHandler envBOk Method.post bodyGoodCep).response =
      ⟨200, true, "weather-json"⟩ :=
  c6_gateway_relays_verbatim envBOk bodyGoodCep ⟨"01001000"⟩ ⟨200, "weather-json"⟩
    rfl (by decide) rfl

/-- Claim C7: the gateway's error mapping, checked in the source's order:
non-POST → 405; POST with a malformed body → 400; well-formed body whose
cep fails the format check → 422 with the fixed message
`invalid zipcode`; network failure contacting service B → 500. -/
theorem c7_gateway_error_mapping (env : GatewayEnv) (m : Method)
    (body : Option Json) :
    (m ≠ Method.post →
       (CepHandler env m body).response = ⟨405, false, "Método não permitido"⟩) ∧
    (m = Method.post → decodeCepRequest body = Except.error () →
       (CepHandler env m body).response = ⟨400, false, "invalid request body"⟩) ∧
    (∀ req, m = Method.post → decodeCepRequest body = Except.ok req →
       validateCEP req.cep = false →
       (CepHandler env m body).response = ⟨422, false, "invalid zipcode"⟩) ∧
    (∀ req, m = Method.post → decodeCepRequest body = Except.ok req →
       validateCEP req.cep = true → env.serviceB req.cep = none →
       (CepHandler env m body).response =
         ⟨500, false, "erro ao conectar com serviço B"⟩) := by
  refine ⟨fun hm => ?_, fun hm hdec => ?_, fun req hm hdec hv => ?_,
    fun req hm hdec hv hb => ?_⟩ <;>
    subst_eqs <;> simp_all [CepHandler]

/-- Witness for C7: all four branches exercised at concrete inputs. -/
theorem c7_gateway_error_mapping_witness :
    (CepHandler envBDown Method.get none).response =
      ⟨405, false, "Método não permitido"⟩ ∧
    (CepHandler envBDown Method.post none).response =
      ⟨400, false, "invalid request body"⟩ ∧
    (CepHandler envBDown Method.post bodyShortCep).response =
      ⟨422, false, "invalid zipcode"⟩ ∧
    (CepHandler envBDown Method.post bodyGoodCep).response =
      ⟨500, false, "erro ao conectar com serviço B"⟩ :=
  ⟨(c7_gateway_error_mapping envBDown Method.get none).1 (by decide),
   (c7_gateway_error_mapping envBDown Method.post none).2.1 rfl rfl,
   (c7_gateway_error_mapping envBDown Method.post bodyShortCep).2.2.1
     ⟨"123"⟩ rfl rfl (by decide),
   (c7_gateway_error_mapping envBDown Method.post bodyGoodCep).2.2.2
     ⟨"01001000"⟩ rfl rfl (by decide) rfl⟩

/-- Claim C10: a syntactically valid JSON object without a `cep` key (or
whose `cep` is the empty string) decodes successfully to an empty cep,
fails the format check, and yields 422 `invalid zipcode` — not 400. -/
theorem c10_missing_cep_field (env : GatewayEnv)
    (fields : List (String × Json))
    (hmiss : lookupCepField fields = none ∨
             lookupCepField fields = some (Json.str "")) :
    decodeCepRequest (some (Json.obj fields)) = Except.ok ⟨""⟩ ∧
    CepHandler env Method.post (some (Json.obj fields)) =
      ⟨⟨422, false, "invalid zipcode"⟩, []⟩ := by
  have hdec : decodeCepRequest (some (Json.obj fields)) = Except.ok ⟨""⟩ := by
    rcases hmiss with h | h <;> simp [decodeCepRequest, h]
  have hv : validateCEP "" = false := by decide
  exact ⟨hdec, by simp [CepHandler, hdec, hv]⟩

/-- Witness for C10 at the empty JSON object. -/
theorem c10_missing_cep_field_witness :
    decodeCepRequest (some (Json.obj [])) = Except.ok ⟨""⟩ ∧
    CepHandler envBDown Method.post (some (Json.obj [])) =
      ⟨⟨422, false, "invalid zipcode"⟩, []⟩ :=
  c10_missing_cep_field envBDown [] (Or.inl rfl)

/-- Claim C2: in the orchestrator's location stage, both a `BuscaCEP`
error and a successful response with an empty `Localidade` yield the same
outcome: 404 with `can not find zipcode`, with the directory lookup as the
only external call performed. -/
theorem c2_location_not_found (env : OrchestratorEnv) (m : Method)
    (cep : String) (hv : validateCEP cep = true)
    (hnf : (BuscaCEP env cep).1 = Except.error () ∨
           ∃ c, (BuscaCEP env cep).1 = Except.ok c ∧ c.localidade = "") :
    WeatherHandler env m cep =
      ⟨⟨404, false, BBody.text "can not find zipcode"⟩,
       [ExtCall.directory cep]⟩ := by
  cases hb : env.viaCEP cep with
  | ok c =>
      have hc : c.localidade = "" := by
        rcases hnf with h | ⟨c', hc', he⟩
        · simp [BuscaCEP, hb] at h
        · simp [BuscaCEP, hb] at hc'
          exact hc' ▸ he
      simp [WeatherHandler, BuscaCEP, hb, hv, hc]
  | transportError => simp [WeatherHandler, BuscaCEP, hb, hv]
  | decodeError => simp [WeatherHandler, BuscaCEP, hb, hv]

/-- Witness for C2 at a concrete environment whose directory lookup
returns an empty locality. -/
theorem c2_location_not_found_witness :
    WeatherHandler envEmptyLocality Method.get "01001000" =
      ⟨⟨404, false, BBody.text "can not find zipcode"⟩,
       [ExtCall.directory "01001000"]⟩ :=
  c2_location_not_found envEmptyLocality Method.get "01001000" (by decide)
    (Or.inr ⟨⟨"", ""⟩, rfl, rfl⟩)

/-- Claim C3: an empty geocoding result list makes `fetchWeather` fail
with the domain error naming the city, and every `fetchWeather` error —
domain, transport or decode, in either the geocoding or the forecast call
— surfaces to the caller as a 500 response, never as the location stage's
404. -/
theorem c3_weather_errors_are_500 (env : OrchestratorEnv) (m : Method)
    (cep city uf : String) (hv : validateCEP cep = true)
    (hdir : env.viaCEP cep = CallResult.ok ⟨city, uf⟩) (hcity : city ≠ "") :
    (env.geocoding city = CallResult.ok [] →
       (fetchWeather env city).1 =
         Except.error (FetchError.domain (coordErrorMessage city))) ∧
    (∀ e : FetchError, (fetchWeather env city).1 = Except.error e →
       (WeatherHandler env m cep).response =
         ⟨500, false, BBody.text "erro ao buscar temperatura"⟩ ∧
       (WeatherHandler env m cep).response.status ≠ 404) := by
  constructor
  · intro hgeo
    simp [fetchWeather, hgeo]
  · intro e he
    cases hf : fetchWeather env city with
    | mk r calls =>
        rw [hf] at he
        simp only at he
        subst he
        constructor
        · simp [WeatherHandler, BuscaCEP, hdir, hv, hcity, hf]
        · simp [WeatherHandler, BuscaCEP, hdir, hv, hcity, hf]

/-- Witness for C3 at a concrete environment whose geocoding lookup
returns no results. -/
theorem c3_weather_errors_are_500_witness :
    (fetchWeather envNoCoords "Sao Paulo").1 =
      Except.error (FetchError.domain (coordErrorMessage "Sao Paulo")) ∧
    (WeatherHandler envNoCoords Method.get "01001000").response =
      ⟨500, false, BBody.text "erro ao buscar temperatura"⟩ := by
  have h := c3_weather_errors_are_500 envNoCoords Method.get "01001000"
    "Sao Paulo" "SP" (by decide) rfl (by decide)
  exact ⟨h.1 rfl, (h.2 (FetchError.domain (coordErrorMessage "Sao Paulo"))
    (h.1 rfl)).1⟩

/-- Claim C8: in both services, a cep failing the format check yields 422
and no outbound network call at all — validation strictly precedes every
external call. -/
theorem c8_validation_precedes_calls (genv : GatewayEnv)
    (oenv : OrchestratorEnv) (m : Method) (body : Option Json)
    (req : CepRequest) (cep : String)
    (hdec : decodeCepRequest body = Except.ok req)
    (hva : validateCEP req.cep = false) (hvb : validateCEP cep = false) :
    CepHandler genv Method.post body = ⟨⟨422, false, "invalid zipcode"⟩, []⟩ ∧
    WeatherHandler oenv m cep =
      ⟨⟨422, false, BBody.text "invalid zipcode"⟩, []⟩ := by
  constructor
  · simp [CepHandler, hdec, hva]
  · simp [WeatherHandler, hvb]

/-- Witness for C8 at a concrete short cep in both services. -/
theorem c8_validation_precedes_calls_witness :
    CepHandler envBDown Method.post bodyShortCep =
      ⟨⟨422, false, "invalid zipcode"⟩, []⟩ ∧
    WeatherHandler envEmptyLocality Method.get "123" =
      ⟨⟨422, false, BBody.text "invalid zipcode"⟩, []⟩ :=
  c8_validation_precedes_calls envBDown envEmptyLocality Method.get
    bodyShortCep ⟨"123"⟩ "123" rfl (by decide) (by decide)

/-- Claim C9: the orchestrator handler never inspects the HTTP method —
any two methods produce identical results for the same cep — and it never
returns 405. -/
theorem c9_method_never_inspected (env : OrchestratorEnv) (m m' : Method)
    (cep : String) :
    WeatherHandler env m cep = WeatherHandler env m' cep ∧
    (WeatherHandler env m cep).response.status ≠ 405 := by
  refine ⟨rfl, ?_⟩
  have hstat : (WeatherHandler env m cep).response.status = 422 ∨
      (WeatherHandler env m cep).response.status = 404 ∨
      (WeatherHandler env m cep).response.status = 500 ∨
      (WeatherHandler env m cep).response.status = 200 := by
    unfold WeatherHandler
    by_cases hv : validateCEP cep
    · cases hb : BuscaCEP env cep with
      | mk r bCalls =>
          cases r with
          | error e => simp [hv, hb]
          | ok c =>
              by_cases hc : c.localidade = ""
              · simp [hv, hb, hc]
              · cases hf : fetchWeather env c.localidade with
                | mk fr wCalls =>
                    cases fr with
                    | error e => simp [hv, hb, hc, hf]
                    | ok t => simp [hv, hb, hc, hf]
    · simp [hv]
  rcases hstat with h | h | h | h <;> omega

/-- Witness for C9 at a concrete environment, methods and cep. -/
theorem c9_method_never_inspected_witness :
    WeatherHandler envEmptyLocality Method.get "01001000" =
      WeatherHandler envEmptyLocality Method.post "01001000" ∧
    (WeatherHandler envEmptyLocality Method.get "01001000").response.status
      ≠ 405 :=
  c9_method_never_inspected envEmptyLocality Method.get Method.post "01001000"

/-- Claim C1, evaluated at concrete fresh trace ids (1 at the gateway, 2
at the orchestrator): service A's `initTracer` never registers a text-map
propagator, so the default no-op propagator injects no `traceparent`
header on the gateway's outbound call; the orchestrator therefore starts
a fresh root trace whose id differs from the gateway's, contradicting the
claimed end-to-end propagation — while the orchestrator's own outbound
calls do carry its trace id unchanged, since service B registers the W3C
trace-context + baggage propagator. -/
theorem c1_gateway_trace_id_lost :
    gatewayTraceId 1 = 1 ∧
    outboundHeadersToB 1 = none ∧
    orchestratorTraceId 1 2 = 2 ∧
    orchestratorTraceId 1 2 ≠ gatewayTraceId 1 ∧
    orchestratorOutboundHeaders 1 2 = some (orchestratorTraceId 1 2) := by
  refine ⟨rfl, rfl, rfl, ?_, rfl⟩
  decide

end Lab2Otel
